import Mathlib

/-!
Verification of the HARBORBAY drawing generator
(`HARBORBAY_V1/generar_lisp_HARBORBAY.py`).

The generator is a pure function from a configuration (`config.json`) and a
tower/level model (loaded from `torres.csv`) to an ordered stream of AutoCAD
LISP drawing directives.  We embed the routing core shallowly: each Python
drawing helper becomes a Lean function producing a list of abstract drawing
commands (`Cmd`); the textual LISP serialization is a fixed injective map from
`Cmd` and is out of scope, so statements about emitted segments and labels are
statements about the `Cmd` stream.  Numeric coordinates are exact rationals
(Python floats here only ever divide by two, which is exact).

Dictionaries of the Python model are embedded as association lists in
insertion order; dictionary keys are unique in the loaded model, and theorems
that depend on uniqueness carry a `Nodup` hypothesis.
-/

namespace HarborBay

abbrev Point := ℚ × ℚ

/-- One emitted drawing directive.  `escribir` covers the raw
`lisp_escribir` lines (comments, `princ` progress messages, AutoCAD setup);
`capa` is `lisp_crear_capa`; `selCapa` is `lisp_seleccionar_capa_y_color`
(which writes the `-LAYER`/`-COLOR` pair); the rest mirror the drawing
helpers one to one. -/
inductive Cmd where
  | escribir (s : String)
  | capa (nombre : String) (color : Int)
  | selCapa (capa : String) (color : Int)
  | linea (p1 p2 : Point)
  | polilinea (puntos : List Point) (cerrada : Bool)
  | circulo (centro : Point) (radio : ℚ)
  | hatch
  | texto (punto : Point) (altura : ℚ) (contenido : String) (justificacion : String)
  deriving DecidableEq, Repr

/-- The five per-level device-quantity columns (`qty_columns` /
`device_draw_order` in the source). -/
inductive DevKind where
  | apQty | telQty | tvQty | datQty | camQty
  deriving DecidableEq, Repr

/-- `device_draw_order = ["apQty", "telQty", "tvQty", "datQty", "camQty"]`. -/
def devOrder : List DevKind := [.apQty, .telQty, .tvQty, .datQty, .camQty]

/-- One level row of a tower: the display name and the five integer device
quantities (`nivel_data` after the explicit `int` conversion). -/
structure Nivel where
  nivel_nombre : String
  apQty : Int
  telQty : Int
  tvQty : Int
  datQty : Int
  camQty : Int
  deriving DecidableEq, Repr

def Nivel.qty (n : Nivel) : DevKind → Int
  | .apQty => n.apQty
  | .telQty => n.telQty
  | .tvQty => n.tvQty
  | .datQty => n.datQty
  | .camQty => n.camQty

/-- A tower: `niveles` is the `nivel_id -> nivel_data` dict in insertion
order, `switches` the `switch name -> model` dict in insertion order.
`id` and `x` are the fields `generar_lisp` assigns in place. -/
structure Torre where
  nombre : String
  niveles : List (Int × Nivel)
  switches : List (String × String)
  id : Int
  x : ℚ
  deriving DecidableEq, Repr

def defaultTorre : Torre := ⟨"", [], [], 0, 0⟩

def defaultNivel : Nivel := ⟨"", 0, 0, 0, 0, 0⟩

/-- An entry of `cfg['DISPOSITIVOS']`. -/
structure DispConf where
  label : String
  icono : String
  deriving DecidableEq, Repr

/-- An entry of `cfg['SWITCH_CONFIG']`; `capa`/`color` may be absent
(the source reads them with `.get(…, default)`). -/
structure SwConf where
  capa : Option String
  color : Option Int
  deriving DecidableEq, Repr

/-- The configuration object (`config.json`), restricted to the keys the
routing core reads.  `dispositivoEspaciadoY` and `upsSwitchGap` hold the
value after the source's `.get(…, 60)` / `.get(…, 30)` defaulting. -/
structure Cfg where
  xInicial : ℚ
  yInicial : ℚ
  longitudPiso : ℚ
  separacionEntreTorres : ℚ
  espacioEntreNiveles : ℚ
  dispositivoEspaciadoX : ℚ
  dispositivoEspaciadoY : ℚ
  dispositivoYOffset : ℚ
  switchAncho : ℚ
  switchAlto : ℚ
  switchVerticalSpacing : ℚ
  switchTextoAltura : ℚ
  upsAncho : ℚ
  upsAlto : ℚ
  upsSwitchGap : ℚ
  torreLabelOffsetY : ℚ
  torreLabelAltura : ℚ
  capas : List (String × Int)
  dispositivos : DevKind → Option DispConf
  mapeoSwitch : DevKind → Option String
  switchConfig : List (String × SwConf)

/-- `cfg['CAPAS'][nombre]`.  The source indexes directly (a missing layer
would abort the Python run); we totalize with AutoCAD's default color 7,
which no claim depends on. -/
def capasGet (cfg : Cfg) (nombre : String) : Int :=
  ((cfg.capas.find? (fun p => p.1 == nombre)).map Prod.snd).getD 7

/-- `key in dict` for an association list. -/
def hasKey {α : Type} (l : List (String × α)) (k : String) : Bool :=
  l.any (fun p => p.1 == k)

/-- `torre['switches'][item]` (present whenever `hasKey` holds). -/
def switchesGet (torre : Torre) (item : String) : String :=
  ((torre.switches.find? (fun p => p.1 == item)).map Prod.snd).getD ""

/-- `torre['niveles'][nivel_id]` (present whenever the id is a key). -/
def nivelesGet (torre : Torre) (nid : Int) : Nivel :=
  ((torre.niveles.find? (fun p => p.1 == nid)).map Prod.snd).getD defaultNivel

-- === drawing primitives (`lisp_dibujar_*`) ===

/-- `lisp_dibujar_texto`: selects layer and color, then draws the text.
At several call sites the source passes the layer positionally into the
`justificacion` slot and an integer color into the `capa` slot (which Python
then formats into the layer-name position of the command); we keep those
argument placements verbatim, rendering such integers with `toString`. -/
def lisp_dibujar_texto (punto : Point) (altura : ℚ) (contenido : String)
    (justificacion : String) (capa : String) (color : Int) : List Cmd :=
  [Cmd.selCapa capa color, Cmd.texto punto altura contenido justificacion]

/-- `lisp_dibujar_rectangulo`: a closed `PLINE` through the four corners. -/
def lisp_dibujar_rectangulo (p1 p2 : Point) : Cmd :=
  Cmd.polilinea [(p1.1, p1.2), (p2.1, p1.2), (p2.1, p2.2), (p1.1, p2.2)] true

-- === component icons (`dibujar_icono_*`) ===

def dibujar_icono_ap (cfg : Cfg) (x y : ℚ) : List Cmd :=
  [Cmd.selCapa "APs" (capasGet cfg "APs"),
   Cmd.polilinea [(x - 10, y), (x + 10, y), (x, y + 25), (x - 10, y)] false,
   Cmd.circulo (x, y + 25) 10,
   Cmd.circulo (x, y + 25) (85 / 4),
   Cmd.circulo (x, y + 25) 30]

def dibujar_icono_telefono (cfg : Cfg) (x y : ℚ) : List Cmd :=
  [Cmd.selCapa "Telefonos" (capasGet cfg "Telefonos"),
   lisp_dibujar_rectangulo (x - 10, y) (x + 10, y + 30),
   Cmd.circulo (x, y + 37) 5]

def dibujar_icono_tv (cfg : Cfg) (x y : ℚ) : List Cmd :=
  [Cmd.selCapa "TVs" (capasGet cfg "TVs"),
   lisp_dibujar_rectangulo (x - 20, y) (x + 20, y + 25),
   Cmd.polilinea [(x - 10, y), (x + 10, y), (x, y - 10), (x - 10, y)] false]

def dibujar_icono_camara (cfg : Cfg) (x y : ℚ) : List Cmd :=
  [Cmd.selCapa "Camaras" (capasGet cfg "Camaras"),
   lisp_dibujar_rectangulo (x - 10, y) (x + 10, y + 15),
   Cmd.circulo (x, y + 15 / 2) 3]

def dibujar_icono_dato (cfg : Cfg) (x y : ℚ) : List Cmd :=
  [Cmd.selCapa "Datos" (capasGet cfg "Datos"),
   Cmd.polilinea [(x - 10, y), (x + 10, y), (x, y + 20)] true,
   Cmd.hatch]

/-- `globals()[f"dibujar_icono_{conf['icono']}"]`: dynamic dispatch on the
configured icon name (an unknown name would abort the Python run; no claim
exercises that case). -/
def dibujar_icono (cfg : Cfg) (icono : String) (x y : ℚ) : List Cmd :=
  if icono == "ap" then dibujar_icono_ap cfg x y
  else if icono == "telefono" then dibujar_icono_telefono cfg x y
  else if icono == "tv" then dibujar_icono_tv cfg x y
  else if icono == "camara" then dibujar_icono_camara cfg x y
  else if icono == "dato" then dibujar_icono_dato cfg x y
  else []

/-- `dibujar_switch`: box at `(x, y)` of the configured size with the
centered name/model label. -/
def dibujar_switch (cfg : Cfg) (x y : ℚ) (nombre modelo : String) : List Cmd :=
  [Cmd.selCapa "Switches" (capasGet cfg "Switches"),
   lisp_dibujar_rectangulo (x, y) (x + cfg.switchAncho, y + cfg.switchAlto)] ++
  lisp_dibujar_texto (x + cfg.switchAncho / 2, y + cfg.switchAlto / 2)
    cfg.switchTextoAltura
    (if modelo == "" then nombre else nombre ++ " (" ++ modelo ++ ")")
    "MC" "Textos" 7

/-- `dibujar_ups`. -/
def dibujar_ups (cfg : Cfg) (x y : ℚ) : List Cmd :=
  [Cmd.selCapa "UPS" (capasGet cfg "UPS"),
   lisp_dibujar_rectangulo (x, y) (x + cfg.upsAncho, y + cfg.upsAlto)] ++
  lisp_dibujar_texto (x + 25, y + 25) 15 "UPS" "C" "Textos" 7 ++
  lisp_dibujar_texto (x + 5, y - 20) 10 "ALIMENTACION" "C" "Textos" 7

-- === layout engine (`generar_lisp`, steps 1 and 2) ===

/-- Step 1 of `generar_lisp`: walk the tower list assigning `torre['id'] = i`
and `torre['x'] = x_torre_actual`, advancing the cursor by
`LONGITUD_PISO + SEPARACION_ENTRE_TORRES` per tower. -/
def asignarX (cfg : Cfg) : List Torre → Int → ℚ → List Torre
  | [], _, _ => []
  | t :: ts, i, x =>
      { t with id := i, x := x } ::
        asignarX cfg ts (i + 1) (x + cfg.longitudPiso + cfg.separacionEntreTorres)

/-- `niveles_ordenados = sorted(set(...))`: the distinct level ids over all
towers, ascending. -/
def nivelesOrdenados (torres : List Torre) : List Int :=
  ((torres.flatMap (fun t => t.niveles.map Prod.fst)).dedup).insertionSort (· ≤ ·)

/-- `num_devices`: how many device kinds of the configured catalog have a
positive quantity at this level row. -/
def numDevices (cfg : Cfg) (nivel : Nivel) : Nat :=
  (devOrder.filter
    (fun k => (cfg.dispositivos k).isSome && decide (0 < nivel.qty k))).length

/-- `max_devices_in_level`: the maximum of `num_devices` over the towers that
have this level (starting from 0). -/
def maxDevicesInLevel (cfg : Cfg) (torres : List Torre) (nid : Int) : Nat :=
  torres.foldl
    (fun m t =>
      match t.niveles.find? (fun p => p.1 == nid) with
      | some p => max m (numDevices cfg p.2)
      | none => m) 0

/-- `level_height = max_devices * DISPOSITIVO_ESPACIADO_Y + ESPACIO_ENTRE_NIVELES`. -/
def levelHeight (cfg : Cfg) (torres : List Torre) (nid : Int) : ℚ :=
  (maxDevicesInLevel cfg torres nid : ℚ) * cfg.dispositivoEspaciadoY +
    cfg.espacioEntreNiveles

/-- Step 2 of `generar_lisp`: accumulate the per-level Y origins bottom-up. -/
def calcAlturas (cfg : Cfg) (torres : List Torre) : List Int → ℚ → List (Int × ℚ)
  | [], _ => []
  | nid :: rest, y => (nid, y) :: calcAlturas cfg torres rest (y + levelHeight cfg torres nid)

/-- The `alturas_niveles` dict (as an association list in its insertion
order, which is ascending level id). -/
def alturasNiveles (cfg : Cfg) (torres : List Torre) : List (Int × ℚ) :=
  calcAlturas cfg torres (nivelesOrdenados torres) cfg.yInicial

/-- `alturas_niveles[nid]` (source indexes directly at keys it created;
totalized with 0, never reached at a present key). -/
def alturasGet (a : List (Int × ℚ)) (nid : Int) : ℚ :=
  ((a.find? (fun p => p.1 == nid)).map Prod.snd).getD 0

/-- `alturas_niveles.get(nid, d)`. -/
def alturasGetD (a : List (Int × ℚ)) (nid : Int) (d : ℚ) : ℚ :=
  ((a.find? (fun p => p.1 == nid)).map Prod.snd).getD d

/-- `min(alturas_niveles.keys())` (defaulted for the empty dict, which in the
source would abort; `main` guarantees at least one tower). -/
def minKeyAlturas (a : List (Int × ℚ)) : Int :=
  match a with
  | [] => 0
  | p :: rest => rest.foldl (fun m q => min m q.1) p.1

-- === coordinate index ===

/-- The per-tower part of the `coords` defaultdict:
`coords[tid]['switches']` and the `disp_<nivel>_<label>` keys.  The Python
string key `f"disp_{nivel_id}_{label}"` is in bijection with the pair
`(nivel_id, label)`, which we use directly. -/
structure TorreCoords where
  switches : List (String × Point)
  disps : List ((Int × String) × Point)
  deriving DecidableEq, Repr

def emptyTorreCoords : TorreCoords := ⟨[], []⟩

/-- The whole coordinate index: per-tower entries indexed by the assigned
tower id (which is the position in the tower list) plus `coords['ups_coord']`. -/
structure Coords where
  torreCoords : List TorreCoords
  upsCoord : Option Point
  deriving DecidableEq, Repr

/-- `coords[tid]` (a missing id reads as the empty dict, matching the
`defaultdict` / the `in coords` guards of the source). -/
def coordsAt (coords : Coords) (tid : Int) : TorreCoords :=
  coords.torreCoords.getD tid.toNat emptyTorreCoords

/-- `coords[tid]['switches'][sw]`. -/
def swCoordGet (tc : TorreCoords) (sw : String) : Point :=
  ((tc.switches.find? (fun p => p.1 == sw)).map Prod.snd).getD (0, 0)

/-- `coords[tid][f"disp_{nid}_{label}"]`. -/
def dispCoordGet (tc : TorreCoords) (nid : Int) (label : String) : Point :=
  ((tc.disps.find? (fun p => p.1.1 == nid && p.1.2 == label)).map Prod.snd).getD (0, 0)

-- === switch / UPS stacking (equipment column) ===

/-- `draw_order` for the equipment stack. -/
def drawOrder : List String :=
  ["SW-UPS", "SW-CCTV", "SW-DATA", "SW-IPTV", "SW-TEL", "SW-WIFI", "SW-CORE", "SW-FIREWALL"]

/-- The `for item_nombre in reversed(items_a_dibujar)` loop: draws each box,
records its coordinate, and moves the cursor down.  Returns the emitted
commands, the `coords[tid]['switches']` entries in insertion order, and the
`ups_coord` assignment if any. -/
def stackSwitches (cfg : Cfg) (torre : Torre) (x_pos : ℚ) :
    List String → ℚ → List Cmd × List (String × Point) × Option Point
  | [], _ => ([], [], none)
  | item :: rest, y =>
    if item == "SW-UPS" then
      if torre.id == 0 then
        let y1 := y - cfg.upsAlto
        let r := stackSwitches cfg torre x_pos rest (y1 - cfg.upsSwitchGap)
        (dibujar_ups cfg x_pos y1 ++ r.1, r.2.1,
         r.2.2.elim (some (x_pos + cfg.upsAncho / 2, y1 + cfg.upsAlto / 2)) some)
      else
        stackSwitches cfg torre x_pos rest y
    else
      let y1 := y - cfg.switchAlto
      let r := stackSwitches cfg torre x_pos rest
        (y1 - (cfg.switchVerticalSpacing - cfg.switchAlto))
      (dibujar_switch cfg x_pos y1 item (switchesGet torre item) ++ r.1,
       (item, (x_pos + cfg.switchAncho / 2, y1 + cfg.switchAlto)) :: r.2.1,
       r.2.2)

-- === device icon stacking per level ===

/-- The inner `for tipo_qty in device_draw_order` loop of the device-drawing
step: draws each present device kind, labels it, records its anchor under the
`disp_<nivel>_<label>` key, and advances the vertical cursor. -/
def drawDevicesTipos (cfg : Cfg) (nid : Int) (nivel : Nivel) (x_disp : ℚ) :
    List DevKind → ℚ → List Cmd × List ((Int × String) × Point)
  | [], _ => ([], [])
  | tipo :: rest, y =>
    match cfg.dispositivos tipo with
    | none => drawDevicesTipos cfg nid nivel x_disp rest y
    | some conf =>
      if 0 < nivel.qty tipo then
        let r := drawDevicesTipos cfg nid nivel x_disp rest (y + cfg.dispositivoEspaciadoY)
        (dibujar_icono cfg conf.icono x_disp y ++
           lisp_dibujar_texto (x_disp, y - 20) 10
             (toString (nivel.qty tipo) ++ "x" ++ conf.label) "C" "Textos" 7 ++
           r.1,
         ((nid, conf.label), (x_disp, y)) :: r.2)
      else drawDevicesTipos cfg nid nivel x_disp rest y

/-- The `for nivel_id, nivel_data in torre['niveles'].items()` loop. -/
def drawNiveles (cfg : Cfg) (alturas : List (Int × ℚ)) (x_base : ℚ) :
    List (Int × Nivel) → List Cmd × List ((Int × String) × Point)
  | [] => ([], [])
  | (nid, nivel) :: rest =>
    let r := drawDevicesTipos cfg nid nivel (x_base + 150) devOrder
      (alturasGet alturas nid + cfg.dispositivoYOffset)
    let r' := drawNiveles cfg alturas x_base rest
    (r.1 ++ r'.1, r.2 ++ r'.2)

-- === per-tower drawing (label, equipment stack, devices) ===

/-- The body of the `for torre in torres` drawing loop of `generar_lisp`:
emitted commands, the tower's coordinate entries, and its `ups_coord`
assignment if any. -/
def drawTorre (cfg : Cfg) (alturas : List (Int × ℚ)) (torre : Torre) :
    List Cmd × TorreCoords × Option Point :=
  let x_base := torre.x
  let y_etiqueta := alturasGet alturas (minKeyAlturas alturas) - cfg.torreLabelOffsetY
  let items := drawOrder.filter (fun it => hasKey torre.switches it)
  let y_sotano := alturasGetD alturas 0 cfg.yInicial
  let y_start := if items.isEmpty then y_sotano else y_sotano - 50
  let stk := stackSwitches cfg torre (x_base + 50) items.reverse y_start
  let dev := drawNiveles cfg alturas x_base torre.niveles
  ([Cmd.escribir ("\n; === DIBUJAR TORRE: " ++ torre.nombre ++ " ==="),
    Cmd.escribir ("(princ \"\\n>> Dibujando Torre: " ++ torre.nombre ++ "...\")")] ++
   lisp_dibujar_texto (x_base, y_etiqueta) cfg.torreLabelAltura torre.nombre "C" "Textos" 7 ++
   [Cmd.escribir "(princ \"\\n   - Dibujando switches y UPS...\")"] ++
   stk.1 ++
   [Cmd.escribir "(princ \"DONE.\")",
    Cmd.escribir "(princ \"\\n   - Dibujando dispositivos por nivel...\")"] ++
   dev.1 ++
   [Cmd.escribir "(princ \"DONE.\")"],
   ⟨stk.2.1, dev.2⟩, stk.2.2)

/-- The whole tower-drawing loop: concatenated commands, the per-tower
coordinate entries in tower order (= assigned-id order), and the final
`ups_coord` (a later assignment would overwrite an earlier one, as in a
dict). -/
def drawTorres (cfg : Cfg) (alturas : List (Int × ℚ)) :
    List Torre → List Cmd × List TorreCoords × Option Point
  | [] => ([], [], none)
  | t :: ts =>
    let r := drawTorre cfg alturas t
    let rs := drawTorres cfg alturas ts
    (r.1 ++ rs.1, r.2.1 :: rs.2.1, rs.2.2.elim r.2.2 some)

/-- The coordinate index as populated by the layout phase of `generar_lisp`
(`torres` already carries the assigned ids and X positions). -/
def coordsOfModel (cfg : Cfg) (torres : List Torre) : Coords :=
  ⟨(drawTorres cfg (alturasNiveles cfg torres) torres).2.1,
   (drawTorres cfg (alturasNiveles cfg torres) torres).2.2⟩

-- === level guide lines ===

/-- `next((t['niveles'][nid]['nivel_nombre'] ...), f"NIVEL {nid}")`. -/
def nivelNombre (torres : List Torre) (nid : Int) : String :=
  match torres.findSome?
      (fun t => (t.niveles.find? (fun p => p.1 == nid)).map (fun p => p.2.nivel_nombre)) with
  | some s => s
  | none => "NIVEL " ++ toString nid

/-- The `DIBUJAR LÍNEAS DE NIVEL` section. -/
def drawNivelLines (cfg : Cfg) (torres : List Torre) (coords : Coords)
    (alturas : List (Int × ℚ)) : List Cmd :=
  [Cmd.escribir "\n; === DIBUJAR LÍNEAS DE NIVEL ===",
   Cmd.escribir "(princ \"\\nDibujando lineas de Nivel...\")"] ++
  alturas.flatMap (fun p =>
    let x_start := match coords.upsCoord with
      | some u => u.1 - cfg.upsAncho / 2 - 20
      | none => cfg.xInicial - 50
    [Cmd.selCapa "Niveles" (capasGet cfg "Niveles"),
     Cmd.linea (x_start, p.2)
       ((torres.getLastD defaultTorre).x + cfg.longitudPiso + 50, p.2)] ++
    lisp_dibujar_texto (x_start + 10, p.2 + 10) 15 (nivelNombre torres p.1) "C" "Textos" 7) ++
  [Cmd.escribir "(princ \"DONE.\")"]

-- === UTP router (`dibujar_cableado_utp`) ===

/-- The per-tower scan for the rightmost device X (`max_x_dispositivo`). -/
def maxXDispositivo (cfg : Cfg) (torre : Torre) : ℚ :=
  torre.niveles.foldl
    (fun m p =>
      max m (torre.x + 150 +
        ((devOrder.filter (fun k => decide (0 < p.2.qty k))).length : ℚ) *
          cfg.dispositivoEspaciadoX)) 0

/-- `niveles_con_dispositivo`: level ids with a positive quantity of this
kind, in `niveles` insertion order. -/
def utpNivelesCon (torre : Torre) (tipo : DevKind) : List Int :=
  (torre.niveles.filter (fun p => decide (0 < p.2.qty tipo))).map Prod.fst

/-- `total_cables`: the tower-wide total quantity of this kind. -/
def utpTotal (torre : Torre) (tipo : DevKind) : Int :=
  (torre.niveles.map (fun p => p.2.qty tipo)).sum

/-- `max(niveles_con_dispositivo)` (defaulted for the empty list, not
reached: the caller checks emptiness first, as the source does). -/
def maxIntList : List Int → Int
  | [] => 0
  | a :: rest => rest.foldl max a

/-- The per-level branch-and-label emission of the UTP router (the inner
`for nivel_id in niveles_con_dispositivo` body). -/
def utpNivelCmds (cfg : Cfg) (torre : Torre) (tc : TorreCoords)
    (alturas : List (Int × ℚ)) (conf : DispConf) (tipo : DevKind)
    (x_troncal : ℚ) (nid : Int) : List Cmd :=
  let p_disp := dispCoordGet tc nid conf.label
  let y_label := (alturasGet alturas nid +
    alturasGetD alturas (nid - 1) (alturasGetD alturas 0 cfg.yInicial)) / 2 + 10
  [Cmd.polilinea [(x_troncal, p_disp.2 - 20), (p_disp.1 - 10, p_disp.2 - 20),
      (p_disp.1 - 10, p_disp.2)] false,
   Cmd.linea (p_disp.1 - 10, p_disp.2) p_disp] ++
  lisp_dibujar_texto (x_troncal + 15, y_label) 10
    (toString ((nivelesGet torre nid).qty tipo) ++ "x" ++ conf.label)
    "Cables_UTP" (toString (capasGet cfg "Cables_UTP")) 7

/-- The body of the `for tipo_qty in device_draw_order` loop of the UTP
router, for a device kind that passed all the guards (switch mapping found
in the coordinate index, some level with a positive quantity). -/
def utpPorTipo (cfg : Cfg) (torre : Torre) (tc : TorreCoords)
    (alturas : List (Int × ℚ)) (conf : DispConf) (tipo : DevKind)
    (sw : String) (x_troncal : ℚ) : List Cmd :=
  let total := utpTotal torre tipo
  let p_sw_top := swCoordGet tc sw
  let p_sw_lado := (p_sw_top.1 + cfg.switchAncho / 2, p_sw_top.2 - cfg.switchAlto / 2)
  let nivelesCon := utpNivelesCon torre tipo
  (if 0 < total then
    lisp_dibujar_texto (p_sw_lado.1 + 15, p_sw_lado.2 + 15) 10
      (toString total ++ "xUTP")
      "Cables_UTP" (toString (capasGet cfg "Cables_UTP")) 7
   else []) ++
  [Cmd.polilinea [p_sw_lado, (p_sw_lado.1 + 10, p_sw_lado.2),
      (p_sw_lado.1 + 20, p_sw_lado.2 + 10), (x_troncal, p_sw_lado.2 + 10)] false] ++
  (if nivelesCon.isEmpty then []
   else
    [Cmd.linea (x_troncal, p_sw_lado.2 + 10)
       (x_troncal, alturasGet alturas (maxIntList nivelesCon) + cfg.dispositivoYOffset)] ++
    nivelesCon.flatMap (utpNivelCmds cfg torre tc alturas conf tipo x_troncal))

/-- The guarded loop over device kinds, threading `offset_troncal_x`
(advanced by 30 only when a kind is actually routed). -/
def utpTipos (cfg : Cfg) (torre : Torre) (tc : TorreCoords)
    (alturas : List (Int × ℚ)) (xBase : ℚ) :
    List DevKind → ℚ → List Cmd
  | [], _ => []
  | tipo :: rest, offset =>
    match cfg.dispositivos tipo with
    | none => utpTipos cfg torre tc alturas xBase rest offset
    | some conf =>
      match cfg.mapeoSwitch tipo with
      | none => utpTipos cfg torre tc alturas xBase rest offset
      | some sw =>
        if hasKey tc.switches sw then
          if (utpNivelesCon torre tipo).isEmpty then
            utpTipos cfg torre tc alturas xBase rest offset
          else
            utpPorTipo cfg torre tc alturas conf tipo sw (xBase + offset) ++
              utpTipos cfg torre tc alturas xBase rest (offset + 30)
        else utpTipos cfg torre tc alturas xBase rest offset

/-- `dibujar_cableado_utp`. -/
def dibujar_cableado_utp (cfg : Cfg) (torres : List Torre) (coords : Coords)
    (alturas : List (Int × ℚ)) : List Cmd :=
  [Cmd.escribir "\n; === DIBUJAR CABLES UTP ===",
   Cmd.escribir "(princ \"\\nDibujando cables UTP...\")",
   Cmd.selCapa "Cables_UTP" (capasGet cfg "Cables_UTP")] ++
  torres.flatMap (fun torre =>
    if torre.switches.isEmpty then []
    else utpTipos cfg torre (coordsAt coords torre.id) alturas
      (maxXDispositivo cfg torre + 50) devOrder 0) ++
  [Cmd.escribir "(princ \"DONE.\")"]

-- === fiber router (`dibujar_cableado_fibra`) ===

/-- Code-point comparison of strings (Python's `sorted` on `str` compares
lexicographically by code point).  Defined by structural recursion on the
character lists so that it evaluates in the kernel. -/
def charListLe : List Char → List Char → Bool
  | [], _ => true
  | _ :: _, [] => false
  | a :: as, b :: bs =>
    if a.toNat < b.toNat then true
    else if b.toNat < a.toNat then false
    else charListLe as bs

def strLe (a b : String) : Prop := charListLe a.data b.data = true

instance : DecidableRel strLe :=
  fun a b => instDecidableEqBool (charListLe a.data b.data) true

/-- `str.replace(pat, rep)` for a nonempty pattern (the source's only call
replaces `"SW-"`): replace every non-overlapping occurrence left to right.
Structural recursion on fuel (initially the string length) so that it
evaluates in the kernel. -/
def pyIsPrefix : List Char → List Char → Bool
  | [], _ => true
  | _ :: _, [] => false
  | p :: ps, c :: cs => (p.toNat == c.toNat) && pyIsPrefix ps cs

def pyReplaceLoop (pat rep : List Char) : Nat → List Char → List Char
  | _, [] => []
  | 0, l => l
  | n + 1, c :: rest =>
    if pyIsPrefix pat (c :: rest) then
      rep ++ pyReplaceLoop pat rep n (List.drop (pat.length - 1) rest)
    else c :: pyReplaceLoop pat rep n rest

def pyReplace (s pat rep : String) : String :=
  ⟨pyReplaceLoop pat.data rep.data s.data.length s.data⟩

/-- `idfs = [t for t in torres if t['id'] != 0]` (used identically by the
fiber and power routers). -/
def idfsDe (torres : List Torre) : List Torre :=
  torres.filter (fun t => decide (t.id ≠ 0))

/-- `todos_sw_tipos_en_idfs`: the switch kinds of the branch towers that are
in the configured catalog, deduplicated and sorted ascending by name. -/
def todosSwTiposEnIdfs (cfg : Cfg) (torres : List Torre) : List String :=
  (((idfsDe torres).flatMap
      (fun idf => (idf.switches.map Prod.fst).filter
        (fun s => hasKey cfg.switchConfig s))).dedup).insertionSort strLe

/-- `cfg['SWITCH_CONFIG'].get(sw, {}).get('capa', 'Fibra')`. -/
def swConfCapa (cfg : Cfg) (sw : String) : String :=
  match (cfg.switchConfig.find? (fun p => p.1 == sw)).map Prod.snd with
  | some c => c.capa.getD "Fibra"
  | none => "Fibra"

/-- `cfg['SWITCH_CONFIG'].get(sw, {}).get('color', 2)`. -/
def swConfColor (cfg : Cfg) (sw : String) : Int :=
  match (cfg.switchConfig.find? (fun p => p.1 == sw)).map Prod.snd with
  | some c => c.color.getD 2
  | none => 2

/-- The fiber label text for a remaining-count value. -/
def fibraLabel (fibras : Nat) (sw_tipo : String) : String :=
  toString fibras ++ "xFO " ++ pyReplace sw_tipo "SW-" ""

/-- The `for idf in idfs_con_este_switch` walk: one horizontal bus segment,
one remaining-count label and one rise per branch tower, threading the
previous bus point and decrementing `fibras_restantes`. -/
def fibraLoop (cfg : Cfg) (coords : Coords) (sw_tipo capa : String) (color : Int)
    (y_bandeja : ℚ) : List Torre → Point → Nat → List Cmd
  | [], _, _ => []
  | idf :: rest, prev, fibras =>
    let p_idf_sw := swCoordGet (coordsAt coords idf.id) sw_tipo
    let p_subida := (p_idf_sw.1 - 50, y_bandeja)
    [Cmd.linea prev p_subida] ++
    lisp_dibujar_texto ((prev.1 + p_subida.1) / 2, y_bandeja + 10) 10
      (fibraLabel fibras sw_tipo) capa (toString color) 7 ++
    [Cmd.linea p_subida (p_idf_sw.1, p_idf_sw.2 - cfg.switchAlto / 2)] ++
    fibraLoop cfg coords sw_tipo capa color y_bandeja rest p_subida (fibras - 1)

/-- The guarded `for sw_tipo in todos_sw_tipos_en_idfs` loop, threading
`y_offset` (advanced by 40 only for kinds that are actually routed). -/
def fibraBloques (cfg : Cfg) (coords : Coords) (mdf : Torre) (idfs : List Torre)
    (y_start : ℚ) : List String → ℚ → List Cmd
  | [], _ => []
  | sw_tipo :: rest, y_off =>
    if hasKey mdf.switches sw_tipo then
      let idfs_con := idfs.filter (fun idf => hasKey idf.switches sw_tipo)
      if idfs_con.isEmpty then fibraBloques cfg coords mdf idfs y_start rest y_off
      else
        let capa := swConfCapa cfg sw_tipo
        let color := swConfColor cfg sw_tipo
        let y_bandeja := y_start - y_off
        let p_mdf_sw := swCoordGet (coordsAt coords 0) sw_tipo
        let p_start := (p_mdf_sw.1, p_mdf_sw.2 - cfg.switchAlto / 2)
        [Cmd.selCapa capa color,
         Cmd.linea p_start (p_start.1 + 50, y_bandeja)] ++
        fibraLoop cfg coords sw_tipo capa color y_bandeja idfs_con
          (p_start.1 + 50, y_bandeja) idfs_con.length ++
        fibraBloques cfg coords mdf idfs y_start rest (y_off + 40)
    else fibraBloques cfg coords mdf idfs y_start rest y_off

/-- `dibujar_cableado_fibra`.  (`torres[0]` on an empty model would abort
the source; `main` guarantees a nonempty model, we default.) -/
def dibujar_cableado_fibra (cfg : Cfg) (torres : List Torre) (coords : Coords)
    (alturas : List (Int × ℚ)) : List Cmd :=
  let y_ups := (coords.upsCoord.getD (0, alturasGet alturas 0 - 100)).2
  [Cmd.escribir "\n; === DIBUJAR CABLES DE FIBRA OPTICA ===",
   Cmd.escribir "(princ \"\\nDibujando cables de Fibra Optica...\")"] ++
  fibraBloques cfg coords (torres.headD defaultTorre) (idfsDe torres) (y_ups - 150)
    (todosSwTiposEnIdfs cfg torres) 0 ++
  [Cmd.escribir "(princ \"DONE.\")"]

-- === power router (the UPS feed section of `generar_lisp`) ===

/-- `max_x_switch`: the maximum switch-coordinate X over every tower's
non-UPS switches. -/
def powerMaxX (torres : List Torre) (coords : Coords) : ℚ :=
  torres.foldl
    (fun m t =>
      t.switches.foldl
        (fun m2 p =>
          if p.1 == "SW-UPS" then m2
          else max m2 (swCoordGet (coordsAt coords t.id) p.1).1) m) 0

/-- The riser loop: for every tower present in the coordinate index and every
recorded non-UPS switch strictly right of the UPS drop X, one vertical riser
from the bus to the switch's connection point.  No labels are emitted. -/
def powerRisers (cfg : Cfg) (coords : Coords) (y_bandeja xDrop : ℚ) :
    List Torre → List Cmd
  | [] => []
  | t :: ts =>
    (coordsAt coords t.id).switches.flatMap
      (fun p =>
        if p.1 == "SW-UPS" then []
        else if xDrop < p.2.1 then
          [Cmd.linea (p.2.1, y_bandeja) (p.2.1, p.2.2 - cfg.switchAlto / 2)]
        else []) ++
    powerRisers cfg coords y_bandeja xDrop ts

/-- The `Dibujando alimentacion desde UPS` section of `generar_lisp`
(lines 551-586): guarded on `'ups_coord' in coords`. -/
def powerSection (cfg : Cfg) (torres : List Torre) (coords : Coords) : List Cmd :=
  [Cmd.escribir "(princ \"\\nDibujando alimentacion desde UPS...\")"] ++
  (match coords.upsCoord with
   | none => []
   | some p_origen =>
     let y_bandeja := p_origen.2 - 150 -
       ((todosSwTiposEnIdfs cfg torres).length : ℚ) * 40 - 40
     let maxX := powerMaxX torres coords
     [Cmd.selCapa "UPS" (capasGet cfg "UPS"),
      Cmd.linea p_origen (p_origen.1, y_bandeja)] ++
     (if 0 < maxX then [Cmd.linea (p_origen.1, y_bandeja) (maxX, y_bandeja)] else []) ++
     powerRisers cfg coords y_bandeja p_origen.1 torres) ++
  [Cmd.escribir "(princ \"DONE.\")"]

-- === full generator ===

/-- The AutoCAD initialization preamble. -/
def initCmds : List Cmd :=
  [Cmd.escribir "(setq *error* (lambda (msg) (if msg (princ (strcat \"\\nError: \" msg)))))",
   Cmd.escribir "(setvar \"OSMODE\" 0)",
   Cmd.escribir "(command \"_.-PURGE\" \"ALL\" \"*\" \"N\")",
   Cmd.escribir "(command \"_.REGEN\")",
   Cmd.escribir "(command \"VISUALSTYLE\" \"Wireframe\")",
   Cmd.escribir "(command \"_.UNDO\" \"BEGIN\")",
   Cmd.escribir "(princ \"--- INICIO DE DIBUJO AUTOMATIZADO HARBORBAY ---\")"]

/-- The layer-creation section. -/
def capasCmds (cfg : Cfg) : List Cmd :=
  [Cmd.escribir "\n; === CREAR CAPAS ===",
   Cmd.escribir "(princ \"\\nCreando capas...\")"] ++
  cfg.capas.map (fun p => Cmd.capa p.1 p.2) ++
  [Cmd.escribir "(princ \"DONE.\")"]

/-- The closing zoom/undo block. -/
def finCmds : List Cmd :=
  [Cmd.escribir "\n; === FINALIZAR DIBUJO ===",
   Cmd.escribir "(princ \"\\nFinalizando y haciendo zoom...\")",
   Cmd.escribir "(command \"_.ZOOM\" \"E\")",
   Cmd.escribir "(command \"_.UNDO\" \"END\")",
   Cmd.escribir "(princ \"\\n--- PROCESO DE DIBUJO COMPLETADO ---\")"]

/-- The result of a run of `generar_lisp`: the command stream written to the
output file, and the tower list as mutated in place (ids and X positions
assigned). -/
structure GenResult where
  cmds : List Cmd
  torres : List Torre

/-- `generar_lisp`: assign ids and X positions, compute the level heights,
draw every tower (populating the coordinate index), draw the level guide
lines, then run the UTP, fiber and power routers. -/
def generarLisp (cfg : Cfg) (torres0 : List Torre) : GenResult :=
  let torres := asignarX cfg torres0 0 cfg.xInicial
  let alturas := alturasNiveles cfg torres
  let coords := coordsOfModel cfg torres
  { cmds := initCmds ++ capasCmds cfg ++
      (drawTorres cfg alturas torres).1 ++
      drawNivelLines cfg torres coords alturas ++
      [Cmd.escribir "\n; === DIBUJAR CABLES ==="] ++
      dibujar_cableado_utp cfg torres coords alturas ++
      dibujar_cableado_fibra cfg torres coords alturas ++
      powerSection cfg torres coords ++
      finCmds,
    torres := torres }

-- === observation helpers ===

/-- The text of a label command, if any. -/
def cmdTexto : Cmd → Option String
  | .texto _ _ s _ => some s
  | _ => none

/-- The label texts of a command stream, in order. -/
def textsOf (l : List Cmd) : List String := l.filterMap cmdTexto

def isTexto (c : Cmd) : Bool := (cmdTexto c).isSome

def isLinea : Cmd → Bool
  | .linea _ _ => true
  | _ => false

def isSegmentOrLabel (c : Cmd) : Bool := isLinea c || isTexto c

theorem textsOf_nil : textsOf [] = [] := rfl

theorem textsOf_append (a b : List Cmd) : textsOf (a ++ b) = textsOf a ++ textsOf b :=
  List.filterMap_append a b cmdTexto

theorem textsOf_texto_helper (p : Point) (a : ℚ) (s j c : String) (col : Int) :
    textsOf (lisp_dibujar_texto p a s j c col) = [s] := rfl

-- === lemmas about the horizontal tower placement ===

theorem asignarX_length (cfg : Cfg) (ts : List Torre) (i : Int) (x : ℚ) :
    (asignarX cfg ts i x).length = ts.length := by
  induction ts generalizing i x with
  | nil => rfl
  | cons t ts ih => simp [asignarX, ih]

theorem asignarX_x_getD (cfg : Cfg) (ts : List Torre) (i : Int) (x : ℚ) (j : Nat)
    (hj : j < ts.length) :
    ((asignarX cfg ts i x).map Torre.x).getD j 0 =
      x + j * (cfg.longitudPiso + cfg.separacionEntreTorres) := by
  induction ts generalizing i x j with
  | nil => simp at hj
  | cons t ts ih =>
    cases j with
    | zero => simp [asignarX]
    | succ j =>
      have h := ih (i + 1) (x + cfg.longitudPiso + cfg.separacionEntreTorres) j
        (by simpa using hj)
      simp only [asignarX, List.map_cons, List.getD_cons_succ, h]
      push_cast
      ring

theorem asignarX_id_getD (cfg : Cfg) (ts : List Torre) (i : Int) (x : ℚ) (j : Nat)
    (hj : j < ts.length) :
    ((asignarX cfg ts i x).getD j defaultTorre).id = i + j := by
  induction ts generalizing i x j with
  | nil => simp at hj
  | cons t ts ih =>
    cases j with
    | zero => simp [asignarX]
    | succ j =>
      have h := ih (i + 1) (x + cfg.longitudPiso + cfg.separacionEntreTorres) j
        (by simpa using hj)
      simp only [asignarX, List.getD_cons_succ, h]
      push_cast
      ring

/-- C6: for a model with at least two towers and positive floor width and
tower gap, consecutive assigned tower X origins differ by the constant
`LONGITUD_PISO + SEPARACION_ENTRE_TORRES` and are strictly increasing. -/
theorem torre_x_espaciado (cfg : Cfg) (torres : List Torre) (j : Nat)
    (hL : 0 < cfg.longitudPiso) (hS : 0 < cfg.separacionEntreTorres)
    (hj : j + 1 < torres.length) :
    ((asignarX cfg torres 0 cfg.xInicial).map Torre.x).getD (j + 1) 0 -
        ((asignarX cfg torres 0 cfg.xInicial).map Torre.x).getD j 0 =
      cfg.longitudPiso + cfg.separacionEntreTorres ∧
    ((asignarX cfg torres 0 cfg.xInicial).map Torre.x).getD j 0 <
      ((asignarX cfg torres 0 cfg.xInicial).map Torre.x).getD (j + 1) 0 := by
  have h1 := asignarX_x_getD cfg torres 0 cfg.xInicial j (Nat.lt_of_succ_lt hj)
  have h2 := asignarX_x_getD cfg torres 0 cfg.xInicial (j + 1) hj
  constructor
  · rw [h1, h2]; push_cast; ring
  · rw [h1, h2]
    have hc : (0 : ℚ) < cfg.longitudPiso + cfg.separacionEntreTorres := by linarith
    push_cast
    nlinarith [hc]

-- === C8: determinism / in-place mutation is idempotent ===

theorem asignarX_overwrite (cfg : Cfg) (ts : List Torre) (i : Int) (x : ℚ) :
    asignarX cfg (asignarX cfg ts i x) i x = asignarX cfg ts i x := by
  induction ts generalizing i x with
  | nil => rfl
  | cons t ts ih => simp [asignarX, ih]

/-- C8: the generator is a pure function of the configuration and the tower
model; the only in-place mutation it performs (assigning ids and X positions)
is idempotent, so running it a second time on the same — now mutated — model
yields the identical command stream.  The BOM report (with its timestamp) is
a separate output, not part of `generar_lisp`. -/
theorem generar_lisp_determinista (cfg : Cfg) (torres : List Torre) :
    (generarLisp cfg (generarLisp cfg torres).torres).cmds =
      (generarLisp cfg torres).cmds := by
  show (generarLisp cfg (asignarX cfg torres 0 cfg.xInicial)).cmds = _
  simp only [generarLisp, asignarX_overwrite]

-- === example data (used by witnesses and counterexamples) ===

/-- An example configuration with the shape of the project's `config.json`
(spacing constants, layer table, device catalog, device-to-switch mapping,
fiber switch catalog). -/
def cfgEx : Cfg where
  xInicial := 100
  yInicial := 100
  longitudPiso := 2000
  separacionEntreTorres := 500
  espacioEntreNiveles := 200
  dispositivoEspaciadoX := 100
  dispositivoEspaciadoY := 60
  dispositivoYOffset := 30
  switchAncho := 300
  switchAlto := 40
  switchVerticalSpacing := 60
  switchTextoAltura := 10
  upsAncho := 100
  upsAlto := 80
  upsSwitchGap := 30
  torreLabelOffsetY := 100
  torreLabelAltura := 30
  capas := [("Switches", 4), ("UPS", 1), ("Cables_UTP", 5), ("Niveles", 8),
    ("APs", 3), ("Telefonos", 2), ("TVs", 6), ("Camaras", 30), ("Datos", 1),
    ("Textos", 7)]
  dispositivos := fun k => match k with
    | .apQty => some ⟨"AP", "ap"⟩
    | .telQty => some ⟨"TEL", "telefono"⟩
    | .tvQty => some ⟨"TV", "tv"⟩
    | .datQty => some ⟨"DATA", "dato"⟩
    | .camQty => some ⟨"CAM", "camara"⟩
  mapeoSwitch := fun k => match k with
    | .apQty => some "SW-WIFI"
    | .telQty => some "SW-TEL"
    | .tvQty => some "SW-IPTV"
    | .datQty => some "SW-DATA"
    | .camQty => some "SW-CCTV"
  switchConfig := [("SW-WIFI", ⟨some "Fibra_WIFI", some 140⟩),
    ("SW-TEL", ⟨some "Fibra_TEL", some 141⟩)]

theorem torre_x_espaciado_witness :
    (0 : ℚ) < cfgEx.longitudPiso ∧ (0 : ℚ) < cfgEx.separacionEntreTorres ∧
    0 + 1 < ([defaultTorre, defaultTorre] : List Torre).length ∧
    (((asignarX cfgEx [defaultTorre, defaultTorre] 0 cfgEx.xInicial).map Torre.x).getD (0 + 1) 0 -
        ((asignarX cfgEx [defaultTorre, defaultTorre] 0 cfgEx.xInicial).map Torre.x).getD 0 0 =
      cfgEx.longitudPiso + cfgEx.separacionEntreTorres ∧
    ((asignarX cfgEx [defaultTorre, defaultTorre] 0 cfgEx.xInicial).map Torre.x).getD 0 0 <
      ((asignarX cfgEx [defaultTorre, defaultTorre] 0 cfgEx.xInicial).map Torre.x).getD (0 + 1) 0) :=
  ⟨by norm_num [cfgEx], by norm_num [cfgEx], by decide,
   torre_x_espaciado cfgEx [defaultTorre, defaultTorre] 0
    (by norm_num [cfgEx]) (by norm_num [cfgEx]) (by decide)⟩

-- === C7: no UPS, no power output ===

theorem stackSwitches_sin_ups (cfg : Cfg) (torre : Torre) (x : ℚ)
    (l : List String) (y : ℚ) (h : "SW-UPS" ∉ l) :
    (stackSwitches cfg torre x l y).2.2 = none := by
  induction l generalizing y with
  | nil => rfl
  | cons item rest ih =>
    have h1 : item ≠ "SW-UPS" := fun e => h (by simp [e])
    have h2 : "SW-UPS" ∉ rest := fun m => h (List.mem_cons_of_mem _ m)
    have hb : (item == "SW-UPS") = false := beq_eq_false_iff_ne.mpr h1
    simp only [stackSwitches, hb, Bool.false_eq_true, if_false]
    exact ih _ h2

theorem drawTorre_sin_ups (cfg : Cfg) (alt : List (Int × ℚ)) (torre : Torre)
    (h : hasKey torre.switches "SW-UPS" = false) :
    (drawTorre cfg alt torre).2.2 = none := by
  have hnot : "SW-UPS" ∉ (drawOrder.filter (fun it => hasKey torre.switches it)).reverse := by
    simp [List.mem_reverse, List.mem_filter, h]
  simp only [drawTorre]
  exact stackSwitches_sin_ups _ _ _ _ _ hnot

theorem drawTorres_sin_ups (cfg : Cfg) (alt : List (Int × ℚ)) (ts : List Torre)
    (h : ∀ t ∈ ts, hasKey t.switches "SW-UPS" = false) :
    (drawTorres cfg alt ts).2.2 = none := by
  induction ts with
  | nil => rfl
  | cons t ts ih =>
    simp only [drawTorres]
    rw [ih (fun u hu => h u (List.mem_cons_of_mem _ hu))]
    exact drawTorre_sin_ups cfg alt t (h t (List.mem_cons_self _ _))

theorem asignarX_switches_mem (cfg : Cfg) (ts : List Torre) (i : Int) (x : ℚ)
    (t' : Torre) (h : t' ∈ asignarX cfg ts i x) :
    ∃ t ∈ ts, t'.switches = t.switches := by
  induction ts generalizing i x with
  | nil => simp [asignarX] at h
  | cons t ts ih =>
    rcases List.mem_cons.mp (by simpa [asignarX] using h) with h1 | h1
    · exact ⟨t, List.mem_cons_self _ _, by simp [h1]⟩
    · obtain ⟨u, hu, he⟩ := ih _ _ h1
      exact ⟨u, List.mem_cons_of_mem _ hu, he⟩

/-- C7: for a model in which no tower has a UPS, the layout phase records no
UPS coordinate, and the Power Router then emits zero power segments and zero
power labels (only its two progress messages); the run completes normally —
in the source the whole power block sits under `if 'ups_coord' in coords:`,
so no lookup can fail. -/
theorem power_sin_ups (cfg : Cfg) (torres0 : List Torre)
    (h : ∀ t ∈ torres0, hasKey t.switches "SW-UPS" = false) :
    (coordsOfModel cfg (asignarX cfg torres0 0 cfg.xInicial)).upsCoord = none ∧
    (powerSection cfg (asignarX cfg torres0 0 cfg.xInicial)
        (coordsOfModel cfg (asignarX cfg torres0 0 cfg.xInicial))).filter
      isSegmentOrLabel = [] := by
  have hc : ∀ t ∈ asignarX cfg torres0 0 cfg.xInicial,
      hasKey t.switches "SW-UPS" = false := by
    intro t ht
    obtain ⟨u, hu, he⟩ := asignarX_switches_mem cfg torres0 0 cfg.xInicial t ht
    rw [he]
    exact h u hu
  have hn : (coordsOfModel cfg (asignarX cfg torres0 0 cfg.xInicial)).upsCoord = none :=
    drawTorres_sin_ups cfg _ _ hc
  refine ⟨hn, ?_⟩
  simp [powerSection, hn, isSegmentOrLabel, isLinea, isTexto, cmdTexto]

def torreSinUps : Torre := ⟨"T1", [(0, defaultNivel)], [("SW-WIFI", "M")], 0, 0⟩

theorem power_sin_ups_witness :
    (∀ t ∈ [torreSinUps], hasKey t.switches "SW-UPS" = false) ∧
    ((coordsOfModel cfgEx (asignarX cfgEx [torreSinUps] 0 cfgEx.xInicial)).upsCoord = none ∧
     (powerSection cfgEx (asignarX cfgEx [torreSinUps] 0 cfgEx.xInicial)
         (coordsOfModel cfgEx (asignarX cfgEx [torreSinUps] 0 cfgEx.xInicial))).filter
       isSegmentOrLabel = []) :=
  ⟨by decide, power_sin_ups cfgEx [torreSinUps] (by decide)⟩

-- === C1: power risers are emitted, but carry no labels ===

theorem powerRisers_mem (cfg : Cfg) (coords : Coords) (yB xD : ℚ)
    (ts : List Torre) (torre : Torre) (ht : torre ∈ ts) (sw : String) (p : Point)
    (hsw : (sw, p) ∈ (coordsAt coords torre.id).switches)
    (hne : sw ≠ "SW-UPS") (hx : xD < p.1) :
    Cmd.linea (p.1, yB) (p.1, p.2 - cfg.switchAlto / 2) ∈
      powerRisers cfg coords yB xD ts := by
  induction ts with
  | nil => cases ht
  | cons t ts ih =>
    simp only [powerRisers]
    rcases List.mem_cons.mp ht with h | h
    · subst h
      refine List.mem_append_left _ (List.mem_flatMap.mpr ⟨(sw, p), hsw, ?_⟩)
      have hb : (sw == "SW-UPS") = false := beq_eq_false_iff_ne.mpr hne
      simp [hb, hx]
    · exact List.mem_append_right _ (ih h)

theorem powerRisers_sin_texto (cfg : Cfg) (coords : Coords) (yB xD : ℚ)
    (ts : List Torre) : ∀ c ∈ powerRisers cfg coords yB xD ts, isTexto c = false := by
  induction ts with
  | nil => intro c hc; cases hc
  | cons t ts ih =>
    intro c hc
    simp only [powerRisers] at hc
    rcases List.mem_append.mp hc with h | h
    · obtain ⟨q, hq, hcq⟩ := List.mem_flatMap.mp h
      by_cases h1 : (q.1 == "SW-UPS") = true
      · simp [h1] at hcq
      · by_cases h2 : xD < q.2.1
        · simp only [h1, Bool.false_eq_true, if_false, h2, if_true,
            List.mem_singleton] at hcq
          subst hcq
          rfl
        · simp [h1, h2] at hcq
    · exact ih c h

theorem powerSection_sin_texto (cfg : Cfg) (ts : List Torre) (coords : Coords) :
    ∀ c ∈ powerSection cfg ts coords, isTexto c = false := by
  intro c hc
  cases hups : coords.upsCoord with
  | none =>
    simp [powerSection, hups] at hc
    rcases hc with h | h <;> subst h <;> rfl
  | some p =>
    simp only [powerSection, hups, List.append_assoc, List.mem_append,
      List.mem_cons, List.mem_singleton, List.not_mem_nil, or_false] at hc
    rcases hc with h | h | h | h | h
    · subst h; rfl
    · rcases h with h | h <;> (subst h; rfl)
    · by_cases hm : (0 : ℚ) < powerMaxX ts coords
      · simp only [hm, if_true, List.mem_singleton] at h
        subst h; rfl
      · simp [hm] at h
    · exact powerRisers_sin_texto cfg coords _ _ ts c h
    · subst h; rfl

/-- C1 (amended): for every non-UPS switch recorded in the coordinate index
whose X lies strictly right of the UPS drop point, the Power Router emits the
vertical riser from the power bus to the switch's connection point — but it
emits no count labels at all: the power section contains no text command.
(The original claim's "decreasing-count label" does not exist in the code.) -/
theorem power_riser_sin_etiqueta (cfg : Cfg) (torres : List Torre) (coords : Coords)
    (p_origen : Point) (hups : coords.upsCoord = some p_origen)
    (torre : Torre) (ht : torre ∈ torres) (sw : String) (p : Point)
    (hsw : (sw, p) ∈ (coordsAt coords torre.id).switches)
    (hne : sw ≠ "SW-UPS") (hx : p_origen.1 < p.1) :
    Cmd.linea
        (p.1, p_origen.2 - 150 - ((todosSwTiposEnIdfs cfg torres).length : ℚ) * 40 - 40)
        (p.1, p.2 - cfg.switchAlto / 2) ∈ powerSection cfg torres coords ∧
    ∀ c ∈ powerSection cfg torres coords, isTexto c = false := by
  refine ⟨?_, powerSection_sin_texto cfg torres coords⟩
  have hm := powerRisers_mem cfg coords
    (p_origen.2 - 150 - ((todosSwTiposEnIdfs cfg torres).length : ℚ) * 40 - 40)
    p_origen.1 torres torre ht sw p hsw hne hx
  simp only [powerSection, hups, List.append_assoc, List.mem_append, List.mem_cons]
  tauto

/-- The coordinate index of the two-tower example model (root with WIFI, TEL
and the UPS; one branch with WIFI), as the layout phase records it. -/
def coordsC1 : Coords :=
  ⟨[⟨[("SW-WIFI", (300, 50)), ("SW-TEL", (300, -10))], []⟩,
    ⟨[("SW-WIFI", (2800, 50))], []⟩],
   some (200, -110)⟩

def torresC1 : List Torre :=
  [⟨"TORRE A", [], [("SW-WIFI", "M1"), ("SW-TEL", "M2"), ("SW-UPS", "APC")], 0, 100⟩,
   ⟨"TORRE B", [], [("SW-WIFI", "M3")], 1, 2600⟩]

/-- C1 counterexample: in the example model the branch WIFI switch lies
strictly right of the UPS drop point (200 < 2800) and risers are drawn
(five power line segments in total), yet the power section contains zero
text commands — no decreasing-count label accompanies any riser, so the
claim as stated is false. -/
theorem power_riser_sin_etiqueta_contra :
    coordsC1.upsCoord = some (200, -110) ∧
    ("SW-WIFI", ((2800 : ℚ), 50)) ∈ (coordsAt coordsC1 1).switches ∧
    ((200 : ℚ) < 2800) ∧
    (powerSection cfgEx torresC1 coordsC1).countP isLinea = 5 ∧
    (powerSection cfgEx torresC1 coordsC1).filter isTexto = [] := by
  decide

theorem power_riser_sin_etiqueta_witness :
    coordsC1.upsCoord = some (200, -110) ∧
    (⟨"TORRE B", [], [("SW-WIFI", "M3")], 1, 2600⟩ : Torre) ∈ torresC1 ∧
    ("SW-WIFI", ((2800 : ℚ), 50)) ∈
      (coordsAt coordsC1 (Torre.id ⟨"TORRE B", [], [("SW-WIFI", "M3")], 1, 2600⟩)).switches ∧
    ("SW-WIFI" : String) ≠ "SW-UPS" ∧
    (((200 : ℚ), (-110 : ℚ)) : Point).1 < ((2800 : ℚ), (50 : ℚ)).1 ∧
    (Cmd.linea
        (2800, (((200 : ℚ), (-110 : ℚ)) : Point).2 - 150 -
          ((todosSwTiposEnIdfs cfgEx torresC1).length : ℚ) * 40 - 40)
        (2800, 50 - cfgEx.switchAlto / 2) ∈ powerSection cfgEx torresC1 coordsC1 ∧
     ∀ c ∈ powerSection cfgEx torresC1 coordsC1, isTexto c = false) :=
  ⟨by decide, by decide, by decide, by decide, by decide,
   power_riser_sin_etiqueta cfgEx torresC1 coordsC1 ((200 : ℚ), (-110 : ℚ))
    (by decide) ⟨"TORRE B", [], [("SW-WIFI", "M3")], 1, 2600⟩ (by decide)
    "SW-WIFI" ((2800 : ℚ), (50 : ℚ)) (by decide) (by decide) (by decide)⟩

-- === C5: the recorded switch coordinate is the top-center of the box ===

/-- C5 (amended): every entry the equipment-stacking step records in the
coordinate index is the midpoint of the top edge (top-center) of the switch
box it draws: the drawn rectangle's corners sit at `p.1 ∓ SWITCH_ANCHO/2`
horizontally and at `p.2 - SWITCH_ALTO` / `p.2` vertically. -/
theorem switch_coord_topcenter (cfg : Cfg) (torre : Torre) (x_pos : ℚ)
    (items : List String) (y : ℚ) (sw : String) (p : Point)
    (h : (sw, p) ∈ (stackSwitches cfg torre x_pos items y).2.1) :
    Cmd.polilinea [(p.1 - cfg.switchAncho / 2, p.2 - cfg.switchAlto),
        (p.1 + cfg.switchAncho / 2, p.2 - cfg.switchAlto),
        (p.1 + cfg.switchAncho / 2, p.2),
        (p.1 - cfg.switchAncho / 2, p.2)] true ∈
      (stackSwitches cfg torre x_pos items y).1 := by
  induction items generalizing y with
  | nil => cases h
  | cons item rest ih =>
    by_cases hu : (item == "SW-UPS") = true
    · by_cases hr : (torre.id == 0) = true
      · simp only [stackSwitches, hu, if_true, hr] at h ⊢
        exact List.mem_append_right _ (ih _ h)
      · simp only [stackSwitches, hu, if_true, hr, Bool.false_eq_true, if_false] at h ⊢
        exact ih _ h
    · simp only [stackSwitches, hu, Bool.false_eq_true, if_false] at h ⊢
      rcases List.mem_cons.mp h with he | he
      · have hp1 : p.1 = x_pos + cfg.switchAncho / 2 := by
          have := congrArg (fun q => q.2.1) he
          simpa using this
        have hp2 : p.2 = (y - cfg.switchAlto) + cfg.switchAlto := by
          have := congrArg (fun q => q.2.2) he
          simpa using this
        refine List.mem_append_left _ ?_
        have h1 : p.1 - cfg.switchAncho / 2 = x_pos := by rw [hp1]; ring
        have h2 : p.1 + cfg.switchAncho / 2 = x_pos + cfg.switchAncho := by rw [hp1]; ring
        have h3 : p.2 - cfg.switchAlto = y - cfg.switchAlto := by rw [hp2]; ring
        have h4 : p.2 = y - cfg.switchAlto + cfg.switchAlto := hp2
        rw [h1, h2, h3, h4]
        simp [dibujar_switch, lisp_dibujar_rectangulo, lisp_dibujar_texto]
      · exact List.mem_append_right _ (ih _ he)

def torreC5 : Torre := ⟨"T", [], [("SW-WIFI", "")], 0, 100⟩

/-- C5 counterexample: stacking the single switch `SW-WIFI` at column
`x_pos = 150` with cursor `y = 50` draws the box with corners
`(150, 10) … (450, 50)` — top-left corner `(150, 50)` — while the
coordinate recorded under `SW-WIFI` is `(300, 50)`, the midpoint of the top
edge, not the top-left corner. -/
theorem switch_coord_topcenter_contra :
    (stackSwitches cfgEx torreC5 150 ["SW-WIFI"] 50).2.1 = [("SW-WIFI", (300, 50))] ∧
    Cmd.polilinea [(150, 10), (450, 10), (450, 50), (150, 50)] true ∈
      (stackSwitches cfgEx torreC5 150 ["SW-WIFI"] 50).1 ∧
    (((300 : ℚ), (50 : ℚ)) : Point) ≠ ((150 : ℚ), (50 : ℚ)) := by
  refine ⟨?_, ?_, by decide⟩ <;>
    (norm_num [stackSwitches, cfgEx, torreC5, dibujar_switch, switchesGet,
      lisp_dibujar_rectangulo, lisp_dibujar_texto]; decide)

theorem switch_coord_topcenter_witness :
    ("SW-WIFI", ((300 : ℚ), (50 : ℚ))) ∈
      (stackSwitches cfgEx torreC5 150 ["SW-WIFI"] 50).2.1 ∧
    Cmd.polilinea [((300 : ℚ) - cfgEx.switchAncho / 2, (50 : ℚ) - cfgEx.switchAlto),
        ((300 : ℚ) + cfgEx.switchAncho / 2, (50 : ℚ) - cfgEx.switchAlto),
        ((300 : ℚ) + cfgEx.switchAncho / 2, (50 : ℚ)),
        ((300 : ℚ) - cfgEx.switchAncho / 2, (50 : ℚ))] true ∈
      (stackSwitches cfgEx torreC5 150 ["SW-WIFI"] 50).1 :=
  ⟨by (norm_num [stackSwitches, cfgEx, torreC5, dibujar_switch, switchesGet,
      lisp_dibujar_rectangulo, lisp_dibujar_texto]; decide),
   switch_coord_topcenter cfgEx torreC5 150 ["SW-WIFI"] 50 "SW-WIFI"
    ((300 : ℚ), (50 : ℚ))
    (by (norm_num [stackSwitches, cfgEx, torreC5, dibujar_switch, switchesGet,
      lisp_dibujar_rectangulo, lisp_dibujar_texto]; decide))⟩

-- === C4: level heights reserve nothing for the switch stack ===

/-- A tower with its switch table removed (its levels untouched). -/
def stripSwitches (t : Torre) : Torre := { t with switches := [] }

theorem nivelesOrdenados_strip (torres : List Torre) :
    nivelesOrdenados (torres.map stripSwitches) = nivelesOrdenados torres := by
  have h : (torres.map stripSwitches).flatMap (fun t => t.niveles.map Prod.fst) =
      torres.flatMap (fun t => t.niveles.map Prod.fst) := by
    induction torres with
    | nil => rfl
    | cons t ts ih => simp [stripSwitches, ih]
  simp [nivelesOrdenados, h]

theorem maxDevicesInLevel_strip (cfg : Cfg) (torres : List Torre) (nid : Int) :
    maxDevicesInLevel cfg (torres.map stripSwitches) nid =
      maxDevicesInLevel cfg torres nid := by
  simp only [maxDevicesInLevel, List.foldl_map]
  rfl

theorem calcAlturas_strip (cfg : Cfg) (torres : List Torre) (ids : List Int) (y : ℚ) :
    calcAlturas cfg (torres.map stripSwitches) ids y = calcAlturas cfg torres ids y := by
  induction ids generalizing y with
  | nil => rfl
  | cons nid rest ih => simp [calcAlturas, levelHeight, maxDevicesInLevel_strip, ih]

/-- C4 (amended): the vertical layout is entirely independent of the switch
tables — every level, the equipment level included, is allotted only the
device-row term `max_devices × DISPOSITIVO_ESPACIADO_Y` plus the fixed
`ESPACIO_ENTRE_NIVELES`; no block sized to the switch kinds or the UPS is
reserved (the equipment stack is drawn extending downward below the
equipment level's baseline instead). -/
theorem alturas_sin_bloque_switches (cfg : Cfg) (torres : List Torre) :
    alturasNiveles cfg (torres.map stripSwitches) = alturasNiveles cfg torres := by
  simp [alturasNiveles, nivelesOrdenados_strip, calcAlturas_strip]

def torresC4 : List Torre :=
  [⟨"A", [(0, defaultNivel), (1, ⟨"N1", 2, 0, 0, 0, 0⟩)],
    [("SW-WIFI", "M1"), ("SW-TEL", "M2"), ("SW-UPS", "APC")], 0, 100⟩]

/-- C4 counterexample: the root tower stacks three equipment boxes (two
switch kinds plus the UPS) and has no devices on its equipment level, yet
the height allotted to level 0 is exactly `ESPACIO_ENTRE_NIVELES` — the
device-row term is zero and no additional block for the switch kinds or the
UPS is included, contradicting the claimed extra reservation. -/
theorem alturas_sin_bloque_switches_contra :
    (torresC4.headD defaultTorre).switches.length = 3 ∧
    hasKey (torresC4.headD defaultTorre).switches "SW-UPS" = true ∧
    maxDevicesInLevel cfgEx torresC4 0 = 0 ∧
    levelHeight cfgEx torresC4 0 = cfgEx.espacioEntreNiveles := by
  refine ⟨by decide, by decide, by decide, ?_⟩
  norm_num [levelHeight, maxDevicesInLevel, numDevices, devOrder, cfgEx,
    torresC4, defaultNivel, Nivel.qty]

-- === C2: UTP total and per-level labels ===

theorem find?_clave_nodup (l : List (Int × Nivel)) (k : Int) (v : Nivel)
    (hnd : (l.map Prod.fst).Nodup) (hm : (k, v) ∈ l) :
    l.find? (fun p => p.1 == k) = some (k, v) := by
  induction l with
  | nil => cases hm
  | cons p rest ih =>
    rw [List.map_cons, List.nodup_cons] at hnd
    rcases List.mem_cons.mp hm with he | he
    · rw [← he]
      simp [List.find?]
    · have hk : (p.1 == k) = false := by
        refine beq_eq_false_iff_ne.mpr fun e => hnd.1 ?_
        exact e ▸ List.mem_map.mpr ⟨(k, v), he, rfl⟩
      rw [List.find?]
      rw [hk]
      exact ih hnd.2 he

theorem nivelesGet_de_mem (torre : Torre) (k : Int) (v : Nivel)
    (hnd : (torre.niveles.map Prod.fst).Nodup) (hm : (k, v) ∈ torre.niveles) :
    nivelesGet torre k = v := by
  rw [nivelesGet, find?_clave_nodup torre.niveles k v hnd hm]
  rfl

theorem utp_niveles_qtys (torre : Torre) (tipo : DevKind)
    (hnd : (torre.niveles.map Prod.fst).Nodup) :
    (utpNivelesCon torre tipo).map (fun nid => (nivelesGet torre nid).qty tipo) =
      (torre.niveles.filter (fun p => decide (0 < p.2.qty tipo))).map
        (fun p => p.2.qty tipo) := by
  rw [utpNivelesCon, List.map_map]
  refine List.map_congr_left fun p hp => ?_
  have hm : p ∈ torre.niveles := List.mem_of_mem_filter hp
  have : nivelesGet torre p.1 = p.2 := nivelesGet_de_mem torre p.1 p.2 hnd (by simpa using hm)
  simp [this]

theorem sum_filter_pos (f : (Int × Nivel) → Int) (l : List (Int × Nivel))
    (hpos : ∀ p ∈ l, 0 ≤ f p) :
    ((l.filter (fun p => decide (0 < f p))).map f).sum = (l.map f).sum := by
  induction l with
  | nil => rfl
  | cons p rest ih =>
    have hr := ih fun q hq => hpos q (List.mem_cons_of_mem _ hq)
    by_cases h : 0 < f p
    · simp [List.filter_cons, h, hr]
    · have h0 : f p = 0 :=
        le_antisymm (not_lt.mp h) (hpos p (List.mem_cons_self _ _))
      simp [List.filter_cons, h, hr, h0]

theorem nivelesCon_no_vacio (torre : Torre) (tipo : DevKind)
    (hpos : ∀ p ∈ torre.niveles, 0 ≤ p.2.qty tipo)
    (hT : 0 < utpTotal torre tipo) :
    (utpNivelesCon torre tipo).isEmpty = false := by
  rw [List.isEmpty_eq_false_iff_exists_mem]
  by_contra hno
  push_neg at hno
  have hfil : torre.niveles.filter (fun p => decide (0 < p.2.qty tipo)) = [] := by
    cases hf : torre.niveles.filter (fun p => decide (0 < p.2.qty tipo)) with
    | nil => rfl
    | cons q l =>
      have hq : q.1 ∈ utpNivelesCon torre tipo := by
        rw [utpNivelesCon, hf]
        exact List.mem_map.mpr ⟨q, List.mem_cons_self _ _, rfl⟩
      exact absurd hq (hno q.1)
  have hall : ∀ p ∈ torre.niveles, p.2.qty tipo = 0 := by
    intro p hp
    by_contra hne
    have hlt : 0 < p.2.qty tipo := lt_of_le_of_ne (hpos p hp) (Ne.symm hne)
    have hmem : p ∈ torre.niveles.filter (fun q => decide (0 < q.2.qty tipo)) :=
      List.mem_filter.mpr ⟨hp, by simpa using hlt⟩
    rw [hfil] at hmem
    cases hmem
  have hz : utpTotal torre tipo = 0 := by
    rw [utpTotal]
    refine List.sum_eq_zero fun x hx => ?_
    obtain ⟨p, hp, he⟩ := List.mem_map.mp hx
    rw [← he]
    exact hall p hp
  omega

theorem textsOf_flatMap (l : List Int) (f : Int → List Cmd) :
    textsOf (l.flatMap f) = l.flatMap (fun x => textsOf (f x)) := by
  induction l with
  | nil => rfl
  | cons a rest ih => simp only [List.flatMap_cons, textsOf_append, ih]

theorem flatMap_singleton_map (l : List Int) (f : Int → String) :
    (l.flatMap (fun x => [f x])) = l.map f := by
  induction l with
  | nil => rfl
  | cons a rest ih => simp [ih]

theorem textsOf_utpNivelCmds (cfg : Cfg) (torre : Torre) (tc : TorreCoords)
    (alturas : List (Int × ℚ)) (conf : DispConf) (tipo : DevKind)
    (xt : ℚ) (nid : Int) :
    textsOf (utpNivelCmds cfg torre tc alturas conf tipo xt nid) =
      [toString ((nivelesGet torre nid).qty tipo) ++ "x" ++ conf.label] := rfl

/-- C2: for a device kind whose catalog entry and switch mapping exist, whose
mapped switch is in the tower's coordinate index, and whose tower-wide total
`T` is positive, the UTP Router's block for that kind emits exactly the
switch-side total label `"Tx UTP"` followed by one per-level label per level
with a positive quantity, the per-level label quantities sum to `T`, the
total label occurs exactly once among the block's labels, and the kind loop
(`utpTipos`) invokes exactly this block under those guards. -/
theorem utp_etiquetas (cfg : Cfg) (torre : Torre) (tc : TorreCoords)
    (alturas : List (Int × ℚ)) (conf : DispConf) (tipo : DevKind) (sw : String)
    (x_troncal xB off : ℚ)
    (hconf : cfg.dispositivos tipo = some conf)
    (hmap : cfg.mapeoSwitch tipo = some sw)
    (hsw : hasKey tc.switches sw = true)
    (hnd : (torre.niveles.map Prod.fst).Nodup)
    (hpos : ∀ p ∈ torre.niveles, 0 ≤ p.2.qty tipo)
    (hT : 0 < utpTotal torre tipo)
    (hdist : ∀ nid ∈ utpNivelesCon torre tipo,
      toString ((nivelesGet torre nid).qty tipo) ++ "x" ++ conf.label ≠
        toString (utpTotal torre tipo) ++ "xUTP") :
    textsOf (utpPorTipo cfg torre tc alturas conf tipo sw x_troncal) =
      (toString (utpTotal torre tipo) ++ "xUTP") ::
        (utpNivelesCon torre tipo).map
          (fun nid => toString ((nivelesGet torre nid).qty tipo) ++ "x" ++ conf.label) ∧
    ((utpNivelesCon torre tipo).map (fun nid => (nivelesGet torre nid).qty tipo)).sum =
      utpTotal torre tipo ∧
    (textsOf (utpPorTipo cfg torre tc alturas conf tipo sw x_troncal)).count
      (toString (utpTotal torre tipo) ++ "xUTP") = 1 ∧
    utpTipos cfg torre tc alturas xB [tipo] off =
      utpPorTipo cfg torre tc alturas conf tipo sw (xB + off) := by
  have hne := nivelesCon_no_vacio torre tipo hpos hT
  have ha : textsOf (utpPorTipo cfg torre tc alturas conf tipo sw x_troncal) =
      (toString (utpTotal torre tipo) ++ "xUTP") ::
        (utpNivelesCon torre tipo).map
          (fun nid => toString ((nivelesGet torre nid).qty tipo) ++ "x" ++ conf.label) := by
    simp only [utpPorTipo, hT, if_true, hne, Bool.false_eq_true, if_false,
      textsOf_append, textsOf_texto_helper, textsOf_flatMap, textsOf_utpNivelCmds,
      flatMap_singleton_map]
    rfl
  refine ⟨ha, ?_, ?_, ?_⟩
  · rw [utp_niveles_qtys torre tipo hnd, utpTotal]
    exact sum_filter_pos _ _ hpos
  · rw [ha, List.count_cons_self]
    have hz : ((utpNivelesCon torre tipo).map
        (fun nid => toString ((nivelesGet torre nid).qty tipo) ++ "x" ++ conf.label)).count
        (toString (utpTotal torre tipo) ++ "xUTP") = 0 := by
      refine List.count_eq_zero.mpr fun hmem => ?_
      obtain ⟨nid, hnid, he⟩ := List.mem_map.mp hmem
      exact hdist nid hnid he
    rw [hz]
  · simp only [utpTipos, hconf, hmap, hsw, if_true, hne, Bool.false_eq_true, if_false]
    simp

def torreC2 : Torre :=
  ⟨"T", [(0, defaultNivel), (1, ⟨"N1", 2, 1, 0, 0, 0⟩), (2, ⟨"N2", 3, 0, 0, 0, 0⟩)],
   [("SW-WIFI", "M1")], 0, 100⟩

def tcC2 : TorreCoords :=
  ⟨[("SW-WIFI", (300, 50))], [((1, "AP"), (250, 330)), ((2, "AP"), (250, 530))]⟩

def altC2 : List (Int × ℚ) := [(0, 100), (1, 300), (2, 500)]

theorem utp_etiquetas_witness :
    cfgEx.dispositivos DevKind.apQty = some ⟨"AP", "ap"⟩ ∧
    cfgEx.mapeoSwitch DevKind.apQty = some "SW-WIFI" ∧
    hasKey tcC2.switches "SW-WIFI" = true ∧
    (torreC2.niveles.map Prod.fst).Nodup ∧
    (∀ p ∈ torreC2.niveles, 0 ≤ p.2.qty DevKind.apQty) ∧
    0 < utpTotal torreC2 DevKind.apQty ∧
    (∀ nid ∈ utpNivelesCon torreC2 DevKind.apQty,
      toString ((nivelesGet torreC2 nid).qty DevKind.apQty) ++ "x" ++ "AP" ≠
        toString (utpTotal torreC2 DevKind.apQty) ++ "xUTP") ∧
    (textsOf (utpPorTipo cfgEx torreC2 tcC2 altC2 ⟨"AP", "ap"⟩ DevKind.apQty "SW-WIFI" 0) =
        (toString (utpTotal torreC2 DevKind.apQty) ++ "xUTP") ::
          (utpNivelesCon torreC2 DevKind.apQty).map
            (fun nid => toString ((nivelesGet torreC2 nid).qty DevKind.apQty) ++ "x" ++ "AP") ∧
      ((utpNivelesCon torreC2 DevKind.apQty).map
          (fun nid => (nivelesGet torreC2 nid).qty DevKind.apQty)).sum =
        utpTotal torreC2 DevKind.apQty ∧
      (textsOf (utpPorTipo cfgEx torreC2 tcC2 altC2 ⟨"AP", "ap"⟩ DevKind.apQty "SW-WIFI" 0)).count
        (toString (utpTotal torreC2 DevKind.apQty) ++ "xUTP") = 1 ∧
      utpTipos cfgEx torreC2 tcC2 altC2 0 [DevKind.apQty] 0 =
        utpPorTipo cfgEx torreC2 tcC2 altC2 ⟨"AP", "ap"⟩ DevKind.apQty "SW-WIFI" (0 + 0)) :=
  ⟨by decide, by decide, by decide, by decide, by decide, by decide, by decide,
   utp_etiquetas cfgEx torreC2 tcC2 altC2 ⟨"AP", "ap"⟩ DevKind.apQty "SW-WIFI" 0 0 0
    (by decide) (by decide) (by decide) (by decide) (by decide) (by decide) (by decide)⟩

-- === C3: fiber countdown labels ===

/-- `idfs_con_este_switch` for a kind, starting from the full tower list. -/
def idfsConSwitch (torres : List Torre) (sw : String) : List Torre :=
  (idfsDe torres).filter (fun idf => hasKey idf.switches sw)

theorem fibraLoop_texts (cfg : Cfg) (coords : Coords) (sw capa : String) (color : Int)
    (yB : ℚ) (l : List Torre) (prev : Point) (n : Nat) :
    textsOf (fibraLoop cfg coords sw capa color yB l prev n) =
      (List.range l.length).map (fun i => fibraLabel (n - i) sw) := by
  induction l generalizing prev n with
  | nil => rfl
  | cons idf rest ih =>
    simp only [fibraLoop, List.append_assoc, textsOf_append, textsOf_texto_helper, ih]
    rw [List.length_cons, List.range_succ_eq_map, List.map_cons, List.map_map]
    show fibraLabel (n - 0) sw :: _ = _
    rw [Nat.sub_zero]
    refine congrArg (fibraLabel n sw :: ·) (List.map_congr_left fun i _ => ?_)
    show fibraLabel (n - 1 - i) sw = fibraLabel (n - (i + 1)) sw
    congr 1
    omega

theorem countdown_getLast (k : Nat) (hk : 1 ≤ k) :
    ((List.range k).map (fun i => k - i)).getLast? = some 1 := by
  obtain ⟨m, rfl⟩ : ∃ m, k = m + 1 := ⟨k - 1, by omega⟩
  rw [List.range_succ, List.map_append]
  rw [List.map_cons, List.map_nil, List.getLast?_concat]
  congr 1
  omega

theorem countdown_sin_cero (k : Nat) : 0 ∉ (List.range k).map (fun i => k - i) := by
  intro h
  obtain ⟨i, hi, he⟩ := List.mem_map.mp h
  rw [List.mem_range] at hi
  omega

theorem length_pos_isEmpty_false {α : Type} (l : List α) (h : 1 ≤ l.length) :
    l.isEmpty = false := by
  cases l with
  | nil => simp at h
  | cons a t => rfl

/-- C3: for a switch kind present in the root tower and in `k ≥ 1` branch
towers, the fiber walk visits the branch towers in ascending assigned-id
order and emits exactly `k` bus labels counting down `k, k-1, …, 1`; the
counter reaches exactly 1 at the last branch and 0 never appears; and the
kind loop (`fibraBloques`) invokes exactly this walk, seeded at `k`, for a
kind passing its guards. -/
theorem fibra_conteo (cfg : Cfg) (coords : Coords) (torres : List Torre)
    (sw_tipo capa : String) (color : Int) (y_bandeja y_start y_off : ℚ) (p : Point)
    (hmdf : hasKey (torres.headD defaultTorre).switches sw_tipo = true)
    (hk : 1 ≤ (idfsConSwitch torres sw_tipo).length)
    (hsorted : List.Sorted (· < ·) (torres.map Torre.id)) :
    textsOf (fibraLoop cfg coords sw_tipo capa color y_bandeja
        (idfsConSwitch torres sw_tipo) p (idfsConSwitch torres sw_tipo).length) =
      (List.range (idfsConSwitch torres sw_tipo).length).map
        (fun i => fibraLabel ((idfsConSwitch torres sw_tipo).length - i) sw_tipo) ∧
    ((List.range (idfsConSwitch torres sw_tipo).length).map
        (fun i => (idfsConSwitch torres sw_tipo).length - i)).getLast? = some 1 ∧
    0 ∉ (List.range (idfsConSwitch torres sw_tipo).length).map
        (fun i => (idfsConSwitch torres sw_tipo).length - i) ∧
    List.Sorted (· < ·) ((idfsConSwitch torres sw_tipo).map Torre.id) ∧
    fibraBloques cfg coords (torres.headD defaultTorre) (idfsDe torres) y_start
        [sw_tipo] y_off =
      [Cmd.selCapa (swConfCapa cfg sw_tipo) (swConfColor cfg sw_tipo),
       Cmd.linea
         ((swCoordGet (coordsAt coords 0) sw_tipo).1,
          (swCoordGet (coordsAt coords 0) sw_tipo).2 - cfg.switchAlto / 2)
         ((swCoordGet (coordsAt coords 0) sw_tipo).1 + 50, y_start - y_off)] ++
      fibraLoop cfg coords sw_tipo (swConfCapa cfg sw_tipo) (swConfColor cfg sw_tipo)
        (y_start - y_off) (idfsConSwitch torres sw_tipo)
        ((swCoordGet (coordsAt coords 0) sw_tipo).1 + 50, y_start - y_off)
        (idfsConSwitch torres sw_tipo).length := by
  refine ⟨fibraLoop_texts cfg coords sw_tipo capa color y_bandeja _ p _,
    countdown_getLast _ hk, countdown_sin_cero _, ?_, ?_⟩
  · have h1 : List.Sublist (idfsConSwitch torres sw_tipo) torres :=
      (List.filter_sublist _).trans (List.filter_sublist _)
    exact List.Pairwise.sublist (h1.map Torre.id) hsorted
  · have hne : ((idfsDe torres).filter
        (fun idf => hasKey idf.switches sw_tipo)).isEmpty = false :=
      length_pos_isEmpty_false _ hk
    rw [fibraBloques, hmdf]
    simp only [if_true, hne, Bool.false_eq_true, if_false, idfsConSwitch]
    rw [fibraBloques]
    simp

def torresC3 : List Torre :=
  [⟨"A", [], [("SW-WIFI", "M1"), ("SW-UPS", "APC")], 0, 100⟩,
   ⟨"B", [], [("SW-WIFI", "M2")], 1, 2600⟩,
   ⟨"C", [], [("SW-WIFI", "M3")], 2, 5100⟩]

def coordsC3 : Coords :=
  ⟨[⟨[("SW-WIFI", (300, 50))], []⟩,
    ⟨[("SW-WIFI", (2800, 50))], []⟩,
    ⟨[("SW-WIFI", (5300, 50))], []⟩],
   some (200, -110)⟩

theorem fibra_conteo_witness :
    hasKey (torresC3.headD defaultTorre).switches "SW-WIFI" = true ∧
    1 ≤ (idfsConSwitch torresC3 "SW-WIFI").length ∧
    List.Sorted (· < ·) (torresC3.map Torre.id) ∧
    (textsOf (fibraLoop cfgEx coordsC3 "SW-WIFI" "Fibra_WIFI" 140 0
        (idfsConSwitch torresC3 "SW-WIFI") (0, 0)
        (idfsConSwitch torresC3 "SW-WIFI").length) =
      (List.range (idfsConSwitch torresC3 "SW-WIFI").length).map
        (fun i => fibraLabel ((idfsConSwitch torresC3 "SW-WIFI").length - i) "SW-WIFI") ∧
    ((List.range (idfsConSwitch torresC3 "SW-WIFI").length).map
        (fun i => (idfsConSwitch torresC3 "SW-WIFI").length - i)).getLast? = some 1 ∧
    0 ∉ (List.range (idfsConSwitch torresC3 "SW-WIFI").length).map
        (fun i => (idfsConSwitch torresC3 "SW-WIFI").length - i) ∧
    List.Sorted (· < ·) ((idfsConSwitch torresC3 "SW-WIFI").map Torre.id) ∧
    fibraBloques cfgEx coordsC3 (torresC3.headD defaultTorre) (idfsDe torresC3) 0
        ["SW-WIFI"] 0 =
      [Cmd.selCapa (swConfCapa cfgEx "SW-WIFI") (swConfColor cfgEx "SW-WIFI"),
       Cmd.linea
         ((swCoordGet (coordsAt coordsC3 0) "SW-WIFI").1,
          (swCoordGet (coordsAt coordsC3 0) "SW-WIFI").2 - cfgEx.switchAlto / 2)
         ((swCoordGet (coordsAt coordsC3 0) "SW-WIFI").1 + 50, 0 - 0)] ++
      fibraLoop cfgEx coordsC3 "SW-WIFI" (swConfCapa cfgEx "SW-WIFI")
        (swConfColor cfgEx "SW-WIFI") (0 - 0) (idfsConSwitch torresC3 "SW-WIFI")
        ((swCoordGet (coordsAt coordsC3 0) "SW-WIFI").1 + 50, 0 - 0)
        (idfsConSwitch torresC3 "SW-WIFI").length) :=
  ⟨by decide, by decide, by decide,
   fibra_conteo cfgEx coordsC3 torresC3 "SW-WIFI" "Fibra_WIFI" 140 0 0 0 (0, 0)
    (by decide) (by decide) (by decide)⟩

-- === C9: loader order, id reassignment, and the root tower ===

/-- Comparison used by `sorted(torres.items())`: the dict keys (CSV `TORRE`
values) are distinct integers, so Python's lexicographic pair comparison
never reaches the values. -/
def keyLe (a b : Int × Torre) : Prop := a.1 ≤ b.1

instance : DecidableRel keyLe := fun a b => Int.decLe a.1 b.1

instance : IsTotal (Int × Torre) keyLe := ⟨fun a b => le_total a.1 b.1⟩

instance : IsTrans (Int × Torre) keyLe := ⟨fun _ _ _ h1 h2 => le_trans h1 h2⟩

/-- Lines 114-115 of `cargar_datos_csv`: the grouped per-tower dict (given
here as an association list keyed by the CSV `TORRE` value) is sorted by key
ascending and only the values are kept. -/
def cargarOrden (entradas : List (Int × Torre)) : List Torre :=
  (entradas.insertionSort keyLe).map Prod.snd

theorem asignarX_id_ne_zero (cfg : Cfg) (ts : List Torre) (i : Int) (x : ℚ)
    (hi : 1 ≤ i) : ∀ a ∈ asignarX cfg ts i x, ¬ a.id = 0 := by
  induction ts generalizing i x with
  | nil => intro a ha; cases ha
  | cons t ts ih =>
    intro a ha
    rcases List.mem_cons.mp (by simpa [asignarX] using ha) with he | he
    · rw [he]
      show ¬ i = 0
      omega
    · exact ih (i + 1) (x + cfg.longitudPiso + cfg.separacionEntreTorres) (by omega) a he

theorem asignarX_filter_pos (cfg : Cfg) (ts : List Torre) (i : Int) (x : ℚ)
    (hi : 1 ≤ i) :
    (asignarX cfg ts i x).filter (fun t => decide (t.id ≠ 0)) = asignarX cfg ts i x := by
  refine List.filter_eq_self.mpr fun a ha => ?_
  simpa using asignarX_id_ne_zero cfg ts i x hi a ha

/-- C9: after loading, the tower list is the CSV groups sorted by ascending
`TORRE` value; `generar_lisp` then overwrites each tower's `id` with its
position `0..N-1` in that order, and the tower the fiber and power routers
treat as the root (`torres[0]`, with `idfs` being everything whose assigned
id is nonzero, i.e. the tail) is simply the entry with the smallest CSV
`TORRE` value — whether or not that value is 0. -/
theorem carga_orden_raiz (cfg : Cfg) (entradas : List (Int × Torre))
    (hne : entradas ≠ []) :
    (∀ j, j < (asignarX cfg (cargarOrden entradas) 0 cfg.xInicial).length →
      ((asignarX cfg (cargarOrden entradas) 0 cfg.xInicial).getD j defaultTorre).id = j) ∧
    (∃ p ∈ entradas, (∀ q ∈ entradas, p.1 ≤ q.1) ∧
      (asignarX cfg (cargarOrden entradas) 0 cfg.xInicial).headD defaultTorre =
        { p.2 with id := 0, x := cfg.xInicial }) ∧
    idfsDe (asignarX cfg (cargarOrden entradas) 0 cfg.xInicial) =
      (asignarX cfg (cargarOrden entradas) 0 cfg.xInicial).tail := by
  refine ⟨?_, ?_, ?_⟩
  · intro j hj
    rw [asignarX_length] at hj
    rw [asignarX_id_getD cfg _ 0 cfg.xInicial j hj]
    omega
  · have hperm : (entradas.insertionSort keyLe).Perm entradas :=
      List.perm_insertionSort keyLe entradas
    have hsorted : List.Sorted keyLe (entradas.insertionSort keyLe) :=
      List.sorted_insertionSort keyLe entradas
    cases hs : entradas.insertionSort keyLe with
    | nil =>
      exfalso
      have hl := hperm.length_eq
      rw [hs] at hl
      cases entradas with
      | nil => exact hne rfl
      | cons a l => simp at hl
    | cons hd tl =>
      refine ⟨hd, ?_, ?_, ?_⟩
      · exact hperm.mem_iff.mp (by rw [hs]; exact List.mem_cons_self _ _)
      · intro q hq
        have hq2 : q ∈ entradas.insertionSort keyLe := hperm.mem_iff.mpr hq
        rw [hs] at hq2
        rcases List.mem_cons.mp hq2 with he | he
        · rw [he]
        · rw [hs] at hsorted
          exact (List.pairwise_cons.mp hsorted).1 q he
      · rw [cargarOrden, hs]
        rfl
  · cases hl : cargarOrden entradas with
    | nil => simp [idfsDe, asignarX]
    | cons t rest =>
      rw [asignarX, idfsDe]
      have h0 : ¬ (({ t with id := 0, x := cfg.xInicial } : Torre).id ≠ 0) := by
        simp only []
        omega
      simp only [List.filter_cons, decide_eq_true_eq, h0, if_false, List.tail_cons]
      exact asignarX_filter_pos cfg rest 1
        (cfg.xInicial + cfg.longitudPiso + cfg.separacionEntreTorres) (le_refl 1)

def entradasC9 : List (Int × Torre) :=
  [(5, ⟨"T5", [], [("SW-WIFI", "M5")], 0, 0⟩),
   (2, ⟨"T2", [], [("SW-WIFI", "M2"), ("SW-UPS", "APC")], 0, 0⟩),
   (9, ⟨"T9", [], [("SW-WIFI", "M9")], 0, 0⟩)]

theorem carga_orden_raiz_witness :
    entradasC9 ≠ [] ∧
    ((∀ j, j < (asignarX cfgEx (cargarOrden entradasC9) 0 cfgEx.xInicial).length →
      ((asignarX cfgEx (cargarOrden entradasC9) 0 cfgEx.xInicial).getD j defaultTorre).id = j) ∧
    (∃ p ∈ entradasC9, (∀ q ∈ entradasC9, p.1 ≤ q.1) ∧
      (asignarX cfgEx (cargarOrden entradasC9) 0 cfgEx.xInicial).headD defaultTorre =
        { p.2 with id := 0, x := cfgEx.xInicial }) ∧
    idfsDe (asignarX cfgEx (cargarOrden entradasC9) 0 cfgEx.xInicial) =
      (asignarX cfgEx (cargarOrden entradasC9) 0 cfgEx.xInicial).tail) :=
  ⟨by decide, carga_orden_raiz cfgEx entradasC9 (by decide)⟩

-- === C10: every device lookup of the UTP router hits a recorded key ===

theorem devOrder_completo (tipo : DevKind) : tipo ∈ devOrder := by
  cases tipo <;> simp [devOrder]

theorem drawDevicesTipos_clave (cfg : Cfg) (nid : Int) (nivel : Nivel) (x : ℚ)
    (order : List DevKind) (y : ℚ) (tipo : DevKind) (conf : DispConf)
    (ht : tipo ∈ order) (hconf : cfg.dispositivos tipo = some conf)
    (hq : 0 < nivel.qty tipo) :
    (nid, conf.label) ∈ (drawDevicesTipos cfg nid nivel x order y).2.map Prod.fst := by
  induction order generalizing y with
  | nil => cases ht
  | cons t rest ih =>
    rcases List.mem_cons.mp ht with he | he
    · rw [← he]
      simp only [drawDevicesTipos, hconf, hq, if_true]
      exact List.mem_cons_self _ _
    · cases hd : cfg.dispositivos t with
      | none =>
        simp only [drawDevicesTipos, hd]
        exact ih _ he
      | some c =>
        by_cases hq2 : 0 < nivel.qty t
        · simp only [drawDevicesTipos, hd, hq2, if_true, List.map_cons]
          exact List.mem_cons_of_mem _ (ih _ he)
        · simp only [drawDevicesTipos, hd, hq2, if_false]
          exact ih _ he

theorem drawNiveles_clave (cfg : Cfg) (alturas : List (Int × ℚ)) (xb : ℚ)
    (l : List (Int × Nivel)) (nid : Int) (nivel : Nivel) (hm : (nid, nivel) ∈ l)
    (tipo : DevKind) (conf : DispConf) (hconf : cfg.dispositivos tipo = some conf)
    (hq : 0 < nivel.qty tipo) :
    (nid, conf.label) ∈ (drawNiveles cfg alturas xb l).2.map Prod.fst := by
  induction l with
  | nil => cases hm
  | cons p rest ih =>
    obtain ⟨k, v⟩ := p
    simp only [drawNiveles, List.map_append, List.mem_append]
    rcases List.mem_cons.mp hm with he | he
    · left
      have hk : k = nid := (Prod.mk.injEq _ _ _ _).mp he.symm |>.1
      have hv : v = nivel := (Prod.mk.injEq _ _ _ _).mp he.symm |>.2
      rw [hk, hv]
      exact drawDevicesTipos_clave cfg nid nivel (xb + 150) devOrder _ tipo conf
        (devOrder_completo tipo) hconf hq
    · exact Or.inr (ih he)

theorem drawTorres_coords_getD (cfg : Cfg) (alt : List (Int × ℚ)) (ts : List Torre)
    (j : Nat) (hj : j < ts.length) :
    (drawTorres cfg alt ts).2.1.getD j emptyTorreCoords =
      (drawTorre cfg alt (ts.getD j defaultTorre)).2.1 := by
  induction ts generalizing j with
  | nil => simp at hj
  | cons t rest ih =>
    cases j with
    | zero => simp [drawTorres]
    | succ j =>
      simp only [drawTorres, List.getD_cons_succ]
      exact ih j (by simpa using hj)

/-- C10: for every tower of the laid-out model, every device kind with a
catalog entry, and every level with a positive quantity of that kind (i.e.
every `disp_<nivel>_<label>` key the UTP Router will read), the layout phase
has recorded a coordinate under exactly that key in the tower's entry of the
coordinate index, so the router's lookups never hit an absent key. -/
theorem utp_lookup_presente (cfg : Cfg) (torres0 : List Torre) (j : Nat)
    (tipo : DevKind) (conf : DispConf) (nid : Int)
    (hj : j < torres0.length)
    (hconf : cfg.dispositivos tipo = some conf)
    (hnid : nid ∈ utpNivelesCon
      ((asignarX cfg torres0 0 cfg.xInicial).getD j defaultTorre) tipo) :
    (nid, conf.label) ∈
      ((coordsAt (coordsOfModel cfg (asignarX cfg torres0 0 cfg.xInicial))
          ((asignarX cfg torres0 0 cfg.xInicial).getD j defaultTorre).id).disps).map
        Prod.fst := by
  have hlen : j < (asignarX cfg torres0 0 cfg.xInicial).length := by
    rw [asignarX_length]; exact hj
  have hid : ((asignarX cfg torres0 0 cfg.xInicial).getD j defaultTorre).id = (j : Int) := by
    rw [asignarX_id_getD cfg torres0 0 cfg.xInicial j hj]
    omega
  rw [hid, coordsAt, coordsOfModel]
  have htn : ((j : Int)).toNat = j := Int.toNat_natCast j
  rw [htn]
  rw [drawTorres_coords_getD cfg _ _ j hlen]
  obtain ⟨pq, hpq, he⟩ := List.mem_map.mp hnid
  have hfil := List.mem_filter.mp hpq
  have hq : 0 < pq.2.qty tipo := by simpa using hfil.2
  have hmem : (nid, pq.2) ∈
      ((asignarX cfg torres0 0 cfg.xInicial).getD j defaultTorre).niveles := by
    rw [← he]
    exact hfil.1
  exact drawNiveles_clave cfg _ _ _ nid pq.2 hmem tipo conf hconf hq

def torresC10 : List Torre :=
  [⟨"A", [(0, defaultNivel), (1, ⟨"N1", 2, 0, 0, 0, 0⟩)], [("SW-WIFI", "M1")], 7, 7⟩]

theorem utp_lookup_presente_witness :
    0 < torresC10.length ∧
    cfgEx.dispositivos DevKind.apQty = some ⟨"AP", "ap"⟩ ∧
    (1 : Int) ∈ utpNivelesCon
      ((asignarX cfgEx torresC10 0 cfgEx.xInicial).getD 0 defaultTorre) DevKind.apQty ∧
    ((1 : Int), "AP") ∈
      ((coordsAt (coordsOfModel cfgEx (asignarX cfgEx torresC10 0 cfgEx.xInicial))
          ((asignarX cfgEx torresC10 0 cfgEx.xInicial).getD 0 defaultTorre).id).disps).map
        Prod.fst :=
  ⟨by decide, by decide, by decide,
   utp_lookup_presente cfgEx torresC10 0 DevKind.apQty ⟨"AP", "ap"⟩ 1
    (by decide) (by decide) (by decide)⟩

end HarborBay
